import Mathlib

/-!
Verification of the FreshBites supply-chain data generator
(src/Dataset/Dataset.py, class FreshBitesDataGenerator).

The Python code is shallowly embedded as follows.

Randomness: every call of np.random.random() returns a float in [0, 1).
A run of a generator is modelled by an explicit stream r of rationals
indexed by the order in which the calls happen; validStream r says every
drawn value lies in [0, 1).  Claims quantified over random streams become
theorems quantified over valid streams.

Floating point: the generators combine the random draws with np.sin and
np.pi.  The claims under verification only depend on these being real
numbers (all relevant bounds come from the max(50, ...) floor, the
max(0, ...) floor and the max(1, ...) floor), so the embedding carries an
abstract RealOps record providing the sin function and the pi constant as
rational-valued parameters; no theorem below needs any property of them.

Python int() truncates toward zero; pyInt embeds it on rationals.

The pandas frames are embedded as lists of records, one structure per
table, with the field names of the source columns.  Filtering a frame
preserves row order, as List.filter does, and .iloc[0] on a filtered
frame is the head of the filtered list; an .iloc[0] on an empty frame
raises IndexError, which is modelled by calculate_baseline_forecast
returning none.  Division by zero in the MAPE computation produces an
undefined floating artifact in the source (numpy division by zero with
warnings suppressed); a MAPE value is therefore embedded as Option, with
none exactly in the zero-divisor case.
-/

/-- Embedding of Python int() on rationals: truncation toward zero.
For a rational with positive denominator this is Int.tdiv of numerator
by denominator, which matches the CPython semantics of int() exactly. -/
def pyInt (q : ℚ) : ℤ := q.num.tdiv q.den

/-- A random stream is valid when every draw lies in [0, 1), the range of
np.random.random(). -/
def validStream (r : ℕ → ℚ) : Prop := ∀ n, 0 ≤ r n ∧ r n < 1

/-- The all-zero stream, a concrete valid random stream. -/
def zeroStream : ℕ → ℚ := fun _ => 0

/-- Abstract real-valued operations used by the generators: the sin
function and the pi constant of numpy.  The claims under verification do
not depend on their values. -/
structure RealOps where
  sin : ℚ → ℚ
  pi : ℚ

/-- A concrete instance of the abstract real operations. -/
def zeroOps : RealOps := ⟨fun _ => 0, 0⟩

/-- The five SKUs of the generator configuration. -/
def skus : List String :=
  ["SKU001_Snacks", "SKU002_Beverages", "SKU003_Cheese", "SKU004_Bakery", "SKU005_Frozen"]

/-- The two distribution centres. -/
def dcs : List String := ["Mumbai", "Kolkata"]

/-- The five supplier identifiers. -/
def supplier_ids : List String := ["SUP001", "SUP002", "SUP003", "SUP004", "SUP005"]

/-- The horizon: 104 weeks. -/
def weeks : ℕ := 104

/-- The twelve festival weeks of the configuration. -/
def festival_weeks : List ℕ := [8, 16, 24, 32, 40, 48, 56, 64, 72, 80, 88, 96]

/-- Membership test week in self.festival_weeks. -/
def isFestivalWeek (w : ℕ) : Bool := festival_weeks.contains w

/-- The per-SKU demand multipliers (self.sku_multipliers). -/
def sku_multipliers (s : String) : ℚ :=
  if s = "SKU001_Snacks" then 12/10
  else if s = "SKU002_Beverages" then 1
  else if s = "SKU003_Cheese" then 8/10
  else if s = "SKU004_Bakery" then 11/10
  else if s = "SKU005_Frozen" then 9/10
  else 0

/-- A row of the forecast table. -/
structure ForecastRow where
  week : ℕ
  sku : String
  dc : String
  forecast_qty : ℤ
  festival_flag : ℕ
deriving DecidableEq

/-- A row of the actuals table. -/
structure ActualRow where
  week : ℕ
  sku : String
  dc : String
  actual_qty : ℤ
deriving DecidableEq

/-- A row of the suppliers table. -/
structure SupplierRow where
  supplier_id : String
  sku : String
  avg_lead_time_wk : ℚ
  lead_time_std : ℚ
  on_time_prob : ℚ
deriving DecidableEq

/-- A row of the deliveries table. -/
structure DeliveryRow where
  week_release : ℕ
  week_arrival : ℤ
  sku : String
  qty : ℤ
  supplier_id : String
deriving DecidableEq

/-- A row of the baseline_forecast table. -/
structure BaselineRow where
  week : ℕ
  sku : String
  dc : String
  naive_forecast : ℤ
  festival_adjusted_forecast : ℤ
  actual : ℤ
deriving DecidableEq

/-- A row of the performance table.  The two MAPE fields are none exactly
when the source would divide by a zero actual. -/
structure PerfRow where
  week : ℕ
  sku : String
  dc : String
  naive_mape : Option ℚ
  festival_mape : Option ℚ
  is_festival : Bool
deriving DecidableEq

/-- Embedding of generate_base_demand: seasonality and weekly pattern from
the abstract sin, the per-SKU multiplier, additive noise from one random
draw u, floored at 50. -/
def generate_base_demand (ops : RealOps) (week : ℕ) (sku : String) (u : ℚ) : ℚ :=
  let seasonality : ℚ := 1 + 3/10 * ops.sin ((week * 2 * ops.pi) / 52)
  let weekly_pattern : ℚ := 1 + 1/10 * ops.sin ((week * 2 * ops.pi) / 4)
  let base_demand : ℚ := 500 * sku_multipliers sku * seasonality * weekly_pattern
  let noise : ℚ := (u - 1/2) * 100
  max 50 (base_demand + noise)

/-- The iteration domain of generate_forecast_data: week 1..104 outer,
then SKU, then DC, exactly the loop nest of the source. -/
def forecastTriples : List (ℕ × String × String) :=
  (List.range' 1 104).product (skus.product dcs)

/-- The loop body chain of generate_forecast_data.  Each row consumes one
random draw for the base-demand noise and, on festival weeks only, one
further draw for the festival uplift, in source order. -/
def forecastRows (ops : RealOps) (r : ℕ → ℚ) :
    List (ℕ × String × String) → ℕ → List ForecastRow
  | [], _ => []
  | (w, s, d) :: ts, idx =>
    let base_demand := generate_base_demand ops w s (r idx)
    if isFestivalWeek w then
      let festival_uplift : ℚ := 4/10 + r (idx + 1) * (1/10)
      ⟨w, s, d, pyInt (base_demand * (1 + festival_uplift)), 1⟩ :: forecastRows ops r ts (idx + 2)
    else
      ⟨w, s, d, pyInt (base_demand * (1 + 0)), 0⟩ :: forecastRows ops r ts (idx + 1)

/-- Embedding of generate_forecast_data. -/
def generate_forecast_data (ops : RealOps) (r : ℕ → ℚ) : List ForecastRow :=
  forecastRows ops r forecastTriples 0

/-- The loop body chain of generate_actuals_data: per forecast row, one
draw for the relative noise and one for the city multiplier. -/
def actualsRows (r : ℕ → ℚ) : List ForecastRow → ℕ → List ActualRow
  | [], _ => []
  | f :: fs, idx =>
    let variance : ℚ := if f.festival_flag ≠ 0 then 3/10 else 15/100
    let noise : ℚ := (r idx - 1/2) * 2 * variance
    let actual_qty : ℤ := pyInt (max 0 ((f.forecast_qty : ℚ) * (1 + noise)))
    let adjusted : ℤ :=
      if f.dc = "Mumbai" then pyInt ((actual_qty : ℚ) * (95/100 + r (idx + 1) * (1/10)))
      else pyInt ((actual_qty : ℚ) * (1 + r (idx + 1) * (5/100)))
    ⟨f.week, f.sku, f.dc, adjusted⟩ :: actualsRows r fs (idx + 2)

/-- Embedding of generate_actuals_data. -/
def generate_actuals_data (r : ℕ → ℚ) (forecast_df : List ForecastRow) : List ActualRow :=
  actualsRows r forecast_df 0

/-- Embedding of generate_suppliers_data: the i-th supplier is paired with
the i-th SKU, and each row consumes three draws, for the average lead
time, the lead-time std and the on-time probability, in source order. -/
def generate_suppliers_data (r : ℕ → ℚ) : List SupplierRow :=
  (List.range 5).map fun i =>
    ⟨supplier_ids.getD i "", skus.getD i "",
      2 + r (3 * i) * 3, 1/2 + r (3 * i + 1) * 1, 7/10 + r (3 * i + 2) * (25/100)⟩

/-- The iteration domain of generate_deliveries_data: release weeks
range(1, weeks - 5) = 1..98, each paired with every supplier row. -/
def deliveryPairs (suppliers_df : List SupplierRow) : List (ℕ × SupplierRow) :=
  (List.range' 1 98).product suppliers_df

/-- The loop body chain of generate_deliveries_data.  One draw decides the
60 percent delivery event; a delivery consumes one draw for the lead-time
jitter and, when the arrival week is within the horizon and the row is
recorded, one further draw for the quantity. -/
def deliveriesAux (r : ℕ → ℚ) : List (ℕ × SupplierRow) → ℕ → List DeliveryRow
  | [], _ => []
  | (w, sup) :: ps, idx =>
    if r idx < 6/10 then
      let lead_time : ℤ := max 1 (pyInt (sup.avg_lead_time_wk + (r (idx + 1) - 1/2) * sup.lead_time_std * 2))
      let arrival_week : ℤ := (w : ℤ) + lead_time
      if arrival_week ≤ 104 then
        ⟨w, arrival_week, sup.sku, pyInt (200 + r (idx + 2) * 800), sup.supplier_id⟩ ::
          deliveriesAux r ps (idx + 3)
      else deliveriesAux r ps (idx + 2)
    else deliveriesAux r ps (idx + 1)

/-- Embedding of generate_deliveries_data. -/
def generate_deliveries_data (r : ℕ → ℚ) (suppliers_df : List SupplierRow) : List DeliveryRow :=
  deliveriesAux r (deliveryPairs suppliers_df) 0

/-- The actual_qty values of the rows matching weeks [w-4, w-1] and the
given SKU and DC, in frame order: the last_four series of the source. -/
def lastFour (actuals_df : List ActualRow) (w : ℕ) (s d : String) : List ℤ :=
  (actuals_df.filter fun a => decide (w - 4 ≤ a.week ∧ a.week < w ∧ a.sku = s ∧ a.dc = d)).map
    fun a => a.actual_qty

/-- The mean of the last_four series, as pandas computes it. -/
def windowMean (actuals_df : List ActualRow) (w : ℕ) (s d : String) : ℚ :=
  ((lastFour actuals_df w s d).sum : ℚ) / ((lastFour actuals_df w s d).length : ℚ)

/-- The first actuals row matching exactly (w, s, d): the .iloc[0] lookup
of the source, none when the filtered frame is empty. -/
def currentRow (actuals_df : List ActualRow) (w : ℕ) (s d : String) : Option ActualRow :=
  (actuals_df.filter fun a => decide (a.week = w ∧ a.sku = s ∧ a.dc = d)).head?

/-- The festival adjustment factor applied to the naive baseline. -/
def upliftFactor (w : ℕ) : ℚ := if isFestivalWeek w then 29/20 else 1

/-- The MAPE of a forecast f against an actual a: abs(a - f)/a, none when
a is zero (the unguarded division of the source). -/
def mapeOf (a : ℤ) (f : ℚ) : Option ℚ :=
  if a = 0 then none else some (|(a : ℚ) - f| / (a : ℚ))

/-- The baseline_forecast record emitted for one accepted triple. -/
def mkBaseline (actuals_df : List ActualRow) (w : ℕ) (s d : String) (a : ℤ) : BaselineRow :=
  ⟨w, s, d, pyInt (windowMean actuals_df w s d),
    pyInt (windowMean actuals_df w s d * upliftFactor w), a⟩

/-- The performance record emitted for one accepted triple. -/
def mkPerf (actuals_df : List ActualRow) (w : ℕ) (s d : String) (a : ℤ) : PerfRow :=
  ⟨w, s, d, mapeOf a (windowMean actuals_df w s d),
    mapeOf a (windowMean actuals_df w s d * upliftFactor w), isFestivalWeek w⟩

/-- The iteration domain of calculate_baseline_forecast: week 5..104,
then SKU, then DC. -/
def calcTriples : List (ℕ × String × String) :=
  (List.range' 5 100).product (skus.product dcs)

/-- The loop body chain of calculate_baseline_forecast.  A triple whose
window has fewer than 4 observations is skipped; an accepted triple whose
current-week lookup is empty raises IndexError in the source, modelled by
a none result for the whole computation. -/
def calcRows (actuals_df : List ActualRow) :
    List (ℕ × String × String) → Option (List BaselineRow × List PerfRow)
  | [] => some ([], [])
  | (w, s, d) :: ts =>
    if 4 ≤ (lastFour actuals_df w s d).length then
      match currentRow actuals_df w s d with
      | none => none
      | some rw =>
        match calcRows actuals_df ts with
        | none => none
        | some (bs, ps) =>
          some (mkBaseline actuals_df w s d rw.actual_qty :: bs,
                mkPerf actuals_df w s d rw.actual_qty :: ps)
    else calcRows actuals_df ts

/-- Embedding of calculate_baseline_forecast, returning the
baseline_forecast and performance tables. -/
def calculate_baseline_forecast (actuals_df : List ActualRow) :
    Option (List BaselineRow × List PerfRow) :=
  calcRows actuals_df calcTriples

/-- Concrete actuals frame realizing the worked example of the
specification: four prior observations 480, 510, 495, 505 for
SKU001_Snacks at Mumbai, all inside the 4-week window of festival week 8,
plus a week-8 actual of 500.  The placement (two rows at week 4, one at
week 6, one at week 7) keeps every other window below 4 observations, so
exactly one baseline row is emitted. -/
def c1Actuals : List ActualRow :=
  [⟨4, "SKU001_Snacks", "Mumbai", 480⟩, ⟨4, "SKU001_Snacks", "Mumbai", 510⟩,
   ⟨6, "SKU001_Snacks", "Mumbai", 495⟩, ⟨7, "SKU001_Snacks", "Mumbai", 505⟩,
   ⟨8, "SKU001_Snacks", "Mumbai", 500⟩]

/-- Concrete actuals frame with the same shape as c1Actuals but with all
observations equal to zero, reaching the division-by-zero branch of the
MAPE computation. -/
def zeroActuals : List ActualRow :=
  [⟨4, "SKU001_Snacks", "Mumbai", 0⟩, ⟨4, "SKU001_Snacks", "Mumbai", 0⟩,
   ⟨6, "SKU001_Snacks", "Mumbai", 0⟩, ⟨7, "SKU001_Snacks", "Mumbai", 0⟩,
   ⟨8, "SKU001_Snacks", "Mumbai", 0⟩]

/-- The single baseline row the calculator emits on zeroActuals. -/
def zeroBaselineRow : BaselineRow := ⟨8, "SKU001_Snacks", "Mumbai", 0, 0, 0⟩

/-- The single performance row the calculator emits on zeroActuals. -/
def zeroPerfRow : PerfRow := ⟨8, "SKU001_Snacks", "Mumbai", none, none, true⟩

/-- The first delivery emitted under the all-zero stream. -/
def zeroDelivery : DeliveryRow := ⟨1, 2, "SKU001_Snacks", 200, "SUP001"⟩

/-! Basic facts about the truncation pyInt. -/

/-- Truncation agrees with the floor on nonnegative rationals. -/
theorem pyInt_eq_floor {q : ℚ} (h : 0 ≤ q) : pyInt q = ⌊q⌋ := by
  rw [pyInt, Int.tdiv_eq_ediv (Rat.num_nonneg.2 h) (Int.natCast_nonneg _), Rat.floor_def]

/-- Truncation preserves integer lower bounds on nonnegative values. -/
theorem le_pyInt {n : ℤ} {q : ℚ} (hn : 0 ≤ n) (h : (n : ℚ) ≤ q) : n ≤ pyInt q := by
  have h0 : (0 : ℚ) ≤ q := le_trans (by exact_mod_cast hn) h
  rw [pyInt_eq_floor h0]
  exact Int.le_floor.2 h

/-- The all-zero stream is a valid random stream. -/
theorem zeroStream_valid : validStream zeroStream :=
  fun _ => ⟨le_refl 0, by norm_num [zeroStream]⟩

/-! Facts about the forecast generator. -/

/-- The base demand is floored at 50, whatever sin, pi and the noise are. -/
theorem generate_base_demand_ge (ops : RealOps) (w : ℕ) (s : String) (u : ℚ) :
    (50 : ℚ) ≤ generate_base_demand ops w s u :=
  le_max_left _ _

/-- Truncation of a floored base demand scaled by a nonnegative uplift
stays at least 50. -/
theorem forecast_qty_bound {base uplift : ℚ} (hb : 50 ≤ base) (hu : 0 ≤ uplift) :
    (50 : ℤ) ≤ pyInt (base * (1 + uplift)) := by
  apply le_pyInt (by norm_num)
  push_cast
  nlinarith

/-- Every forecast row produced by the loop body chain has quantity at
least 50. -/
theorem forecastRows_qty (ops : RealOps) (r : ℕ → ℚ) (hr : validStream r) :
    ∀ (ts : List (ℕ × String × String)) (idx : ℕ),
      ∀ f ∈ forecastRows ops r ts idx, (50 : ℤ) ≤ f.forecast_qty := by
  intro ts
  induction ts with
  | nil => intro idx f hf; simp [forecastRows] at hf
  | cons t ts ih =>
    obtain ⟨w, s, d⟩ := t
    intro idx f hf
    rw [forecastRows] at hf
    split at hf <;> rcases List.mem_cons.1 hf with rfl | hmem
    · exact forecast_qty_bound (generate_base_demand_ge ops w s (r idx))
        (by have := (hr (idx + 1)).1; nlinarith)
    · exact ih (idx + 2) f hmem
    · exact forecast_qty_bound (generate_base_demand_ge ops w s (r idx)) (by norm_num)
    · exact ih (idx + 1) f hmem

/-- The keys of the rows produced by the forecast loop body chain are
exactly the iterated triples, in order. -/
theorem forecastRows_key (ops : RealOps) (r : ℕ → ℚ) :
    ∀ (ts : List (ℕ × String × String)) (idx : ℕ),
      (forecastRows ops r ts idx).map (fun f => (f.week, f.sku, f.dc)) = ts := by
  intro ts
  induction ts with
  | nil => intro idx; rfl
  | cons t ts ih =>
    obtain ⟨w, s, d⟩ := t
    intro idx
    rw [forecastRows]
    split <;> simp [ih]

/-- The forecast loop produces one row per iterated triple. -/
theorem forecastRows_length (ops : RealOps) (r : ℕ → ℚ)
    (ts : List (ℕ × String × String)) (idx : ℕ) :
    (forecastRows ops r ts idx).length = ts.length := by
  have := congrArg List.length (forecastRows_key ops r ts idx)
  simpa using this

/-! Facts about the actuals generator. -/

/-- The keys of the actual rows are the keys of the forecast rows they
are derived from, in order. -/
theorem actualsRows_key (r : ℕ → ℚ) :
    ∀ (fs : List ForecastRow) (idx : ℕ),
      (actualsRows r fs idx).map (fun a => (a.week, a.sku, a.dc)) =
        fs.map (fun f => (f.week, f.sku, f.dc)) := by
  intro fs
  induction fs with
  | nil => intro idx; rfl
  | cons f fs ih => intro idx; rw [actualsRows]; simp [ih]

/-- Per-row positivity: a forecast quantity of at least 50, noise drawn
from a variance of 3/10 or 15/100, and either city multiplier yield a
strictly positive truncated actual. -/
theorem actual_qty_pos {fq : ℤ} {u1 u2 v : ℚ} (hfq : 50 ≤ fq)
    (h10 : 0 ≤ u1) (h20 : 0 ≤ u2)
    (hv : v = 3/10 ∨ v = 15/100) :
    (0 : ℤ) < pyInt ((pyInt (max 0 ((fq : ℚ) * (1 + (u1 - 1/2) * 2 * v))) : ℚ) * (95/100 + u2 * (1/10))) ∧
    (0 : ℤ) < pyInt ((pyInt (max 0 ((fq : ℚ) * (1 + (u1 - 1/2) * 2 * v))) : ℚ) * (1 + u2 * (5/100))) := by
  have hfq' : (50 : ℚ) ≤ (fq : ℚ) := by exact_mod_cast hfq
  have hnoise : (7/10 : ℚ) ≤ 1 + (u1 - 1/2) * 2 * v := by
    rcases hv with h | h <;> subst h <;> nlinarith
  have hq : (35 : ℚ) ≤ (fq : ℚ) * (1 + (u1 - 1/2) * 2 * v) := by nlinarith
  have hmax : (35 : ℚ) ≤ max 0 ((fq : ℚ) * (1 + (u1 - 1/2) * 2 * v)) :=
    le_trans hq (le_max_right _ _)
  have ha0 : (35 : ℤ) ≤ pyInt (max 0 ((fq : ℚ) * (1 + (u1 - 1/2) * 2 * v))) :=
    le_pyInt (by norm_num) hmax
  have ha0' : (35 : ℚ) ≤ ((pyInt (max 0 ((fq : ℚ) * (1 + (u1 - 1/2) * 2 * v)))) : ℚ) := by
    exact_mod_cast ha0
  constructor
  · have h1 : ((1 : ℤ) : ℚ) ≤ ((pyInt (max 0 ((fq : ℚ) * (1 + (u1 - 1/2) * 2 * v)))) : ℚ) * (95/100 + u2 * (1/10)) := by
      push_cast
      nlinarith
    exact lt_of_lt_of_le zero_lt_one (le_pyInt (by norm_num) h1)
  · have h1 : ((1 : ℤ) : ℚ) ≤ ((pyInt (max 0 ((fq : ℚ) * (1 + (u1 - 1/2) * 2 * v)))) : ℚ) * (1 + u2 * (5/100)) := by
      push_cast
      nlinarith
    exact lt_of_lt_of_le zero_lt_one (le_pyInt (by norm_num) h1)

/-- Every actual row derived from forecast rows with quantity at least 50
under a valid stream has a strictly positive quantity. -/
theorem actualsRows_pos (r : ℕ → ℚ) (hr : validStream r) :
    ∀ (fs : List ForecastRow) (idx : ℕ), (∀ f ∈ fs, (50 : ℤ) ≤ f.forecast_qty) →
      ∀ a ∈ actualsRows r fs idx, 0 < a.actual_qty := by
  intro fs
  induction fs with
  | nil => intro idx _ a ha; simp [actualsRows] at ha
  | cons f fs ih =>
    intro idx hfs a ha
    rw [actualsRows] at ha
    rcases List.mem_cons.1 ha with rfl | hmem
    · have hfq : (50 : ℤ) ≤ f.forecast_qty := hfs f (List.mem_cons_self f fs)
      have hv : (if f.festival_flag ≠ 0 then (3/10 : ℚ) else 15/100) = 3/10 ∨
          (if f.festival_flag ≠ 0 then (3/10 : ℚ) else 15/100) = 15/100 := by
        split <;> simp
      have hpos := actual_qty_pos hfq (hr idx).1 (hr (idx + 1)).1 hv
      dsimp only
      split
      · exact hpos.1
      · exact hpos.2
    · exact ih (idx + 2) (fun g hg => hfs g (List.mem_cons_of_mem f hg)) a hmem

/-! Facts about the deliveries generator. -/

/-- Every delivery produced by the loop body chain has an arrival no
earlier than its release, an arrival within the horizon, and a release
week drawn from the iterated pairs. -/
theorem deliveriesAux_facts (r : ℕ → ℚ) :
    ∀ (pairs : List (ℕ × SupplierRow)) (idx : ℕ), ∀ d ∈ deliveriesAux r pairs idx,
      ((d.week_release : ℤ) ≤ d.week_arrival ∧ d.week_arrival ≤ 104) ∧
      ∃ p ∈ pairs, d.week_release = p.1 := by
  intro pairs
  induction pairs with
  | nil => intro idx d hd; simp [deliveriesAux] at hd
  | cons p ps ih =>
    obtain ⟨w, sup⟩ := p
    intro idx d hd
    rw [deliveriesAux] at hd
    split at hd
    · dsimp only at hd
      split at hd
      · rename_i harr
        rcases List.mem_cons.1 hd with rfl | hmem
        · refine ⟨⟨?_, harr⟩, ⟨(w, sup), List.mem_cons_self _ _, rfl⟩⟩
          have h1 : (1 : ℤ) ≤ max 1 (pyInt (sup.avg_lead_time_wk + (r (idx + 1) - 1/2) * sup.lead_time_std * 2)) :=
            le_max_left _ _
          dsimp only
          omega
        · obtain ⟨hb, q, hq, he⟩ := ih (idx + 3) d hmem
          exact ⟨hb, q, List.mem_cons_of_mem _ hq, he⟩
      · obtain ⟨hb, q, hq, he⟩ := ih (idx + 2) d hd
        exact ⟨hb, q, List.mem_cons_of_mem _ hq, he⟩
    · obtain ⟨hb, q, hq, he⟩ := ih (idx + 1) d hd
      exact ⟨hb, q, List.mem_cons_of_mem _ hq, he⟩

/-- Release weeks of generated deliveries lie in the iterated range 1..98. -/
theorem generate_deliveries_release (r : ℕ → ℚ) (suppliers_df : List SupplierRow) :
    ∀ d ∈ generate_deliveries_data r suppliers_df,
      1 ≤ d.week_release ∧ d.week_release ≤ 98 := by
  intro d hd
  obtain ⟨-, ⟨w, sup⟩, hp, he⟩ := deliveriesAux_facts r (deliveryPairs suppliers_df) 0 d hd
  have hw : w ∈ List.range' 1 98 := (List.pair_mem_product.1 hp).1
  have := List.mem_range'_1.1 hw
  omega

/-! Facts about the baseline calculator. -/

/-- A successful current-week lookup returns a row of the actuals frame. -/
theorem currentRow_mem {actuals_df : List ActualRow} {w : ℕ} {s d : String} {row : ActualRow}
    (h : currentRow actuals_df w s d = some row) : row ∈ actuals_df := by
  rw [currentRow] at h
  have hmem : row ∈ actuals_df.filter fun a => decide (a.week = w ∧ a.sku = s ∧ a.dc = d) := by
    apply List.mem_of_mem_head?
    rw [h]
    rfl
  exact List.mem_of_mem_filter hmem

/-- Structural characterization of the rows emitted by the loop body
chain of calculate_baseline_forecast: every baseline row and every
performance row comes from an iterated triple whose window holds at least
4 observations, carries the truncated window mean and its festival
adjustment, and pairs with the first current-week actual row. -/
theorem calcRows_spec (actuals_df : List ActualRow) :
    ∀ (ts : List (ℕ × String × String)) (bs : List BaselineRow) (ps : List PerfRow),
      calcRows actuals_df ts = some (bs, ps) →
      (∀ b ∈ bs, ((b.week, b.sku, b.dc) ∈ ts ∧ 4 ≤ (lastFour actuals_df b.week b.sku b.dc).length) ∧
        b.naive_forecast = pyInt (windowMean actuals_df b.week b.sku b.dc) ∧
        b.festival_adjusted_forecast = pyInt (windowMean actuals_df b.week b.sku b.dc * upliftFactor b.week) ∧
        ∃ row, currentRow actuals_df b.week b.sku b.dc = some row ∧ b.actual = row.actual_qty) ∧
      (∀ p ∈ ps, ((p.week, p.sku, p.dc) ∈ ts ∧ 4 ≤ (lastFour actuals_df p.week p.sku p.dc).length) ∧
        p.is_festival = isFestivalWeek p.week ∧
        ∃ row, currentRow actuals_df p.week p.sku p.dc = some row ∧
          p.naive_mape = mapeOf row.actual_qty (windowMean actuals_df p.week p.sku p.dc) ∧
          p.festival_mape = mapeOf row.actual_qty (windowMean actuals_df p.week p.sku p.dc * upliftFactor p.week)) := by
  intro ts
  induction ts with
  | nil =>
    intro bs ps h
    rw [calcRows] at h
    simp only [Option.some.injEq, Prod.mk.injEq] at h
    obtain ⟨h1, h2⟩ := h
    subst h1; subst h2
    exact ⟨fun b hb => absurd hb (List.not_mem_nil b), fun p hp => absurd hp (List.not_mem_nil p)⟩
  | cons t ts ih =>
    obtain ⟨w, s, d⟩ := t
    intro bs ps h
    rw [calcRows] at h
    by_cases hlen : 4 ≤ (lastFour actuals_df w s d).length
    · rw [if_pos hlen] at h
      cases hcur : currentRow actuals_df w s d with
      | none => rw [hcur] at h; simp at h
      | some row =>
        rw [hcur] at h
        cases hrec : calcRows actuals_df ts with
        | none => rw [hrec] at h; simp at h
        | some pr =>
          obtain ⟨bs', ps'⟩ := pr
          rw [hrec] at h
          simp only [Option.some.injEq, Prod.mk.injEq] at h
          obtain ⟨h1, h2⟩ := h
          subst h1; subst h2
          obtain ⟨ihb, ihp⟩ := ih bs' ps' hrec
          constructor
          · intro b hb
            rcases List.mem_cons.1 hb with rfl | hmem
            · exact ⟨⟨List.mem_cons_self _ _, hlen⟩, rfl, rfl, row, hcur, rfl⟩
            · obtain ⟨⟨hts, hl⟩, hrest⟩ := ihb b hmem
              exact ⟨⟨List.mem_cons_of_mem _ hts, hl⟩, hrest⟩
          · intro p hp
            rcases List.mem_cons.1 hp with rfl | hmem
            · exact ⟨⟨List.mem_cons_self _ _, hlen⟩, rfl, row, hcur, rfl, rfl⟩
            · obtain ⟨⟨hts, hl⟩, hrest⟩ := ihp p hmem
              exact ⟨⟨List.mem_cons_of_mem _ hts, hl⟩, hrest⟩
    · rw [if_neg hlen] at h
      obtain ⟨ihb, ihp⟩ := ih bs ps h
      constructor
      · intro b hb
        obtain ⟨⟨hts, hl⟩, hrest⟩ := ihb b hb
        exact ⟨⟨List.mem_cons_of_mem _ hts, hl⟩, hrest⟩
      · intro p hp
        obtain ⟨⟨hts, hl⟩, hrest⟩ := ihp p hp
        exact ⟨⟨List.mem_cons_of_mem _ hts, hl⟩, hrest⟩

/-- Triples iterated by calculate_baseline_forecast have week at least 5. -/
theorem calcTriples_week {w : ℕ} {s d : String} (h : (w, s, d) ∈ calcTriples) : 5 ≤ w := by
  have hw : w ∈ List.range' 5 100 := (List.pair_mem_product.1 h).1
  exact (List.mem_range'_1.1 hw).1

/-! Counting distinct keys. -/

/-- Counting the occurrences of a member of a duplicate-free list by its
defining predicate gives exactly one. -/
theorem countP_eq_one_of_nodup {α : Type} [DecidableEq α] :
    ∀ {l : List α}, l.Nodup → ∀ {a : α}, a ∈ l → l.countP (fun x => decide (x = a)) = 1 := by
  intro l
  induction l with
  | nil => intro _ a ha; cases ha
  | cons b l ih =>
    intro hnd a ha
    obtain ⟨hb, hl⟩ := List.nodup_cons.1 hnd
    rw [List.countP_cons]
    rcases List.mem_cons.1 ha with rfl | ha'
    · have hz : l.countP (fun x => decide (x = a)) = 0 :=
        List.countP_eq_zero.2 (fun x hx => by simp only [decide_eq_true_eq]; rintro rfl; exact hb hx)
      simp [hz]
    · have hne : b ≠ a := fun he => hb (he ▸ ha')
      rw [ih hl ha']
      simp [hne]

/-- The iterated forecast triples are pairwise distinct. -/
theorem forecastTriples_nodup : forecastTriples.Nodup := by
  have h1 : (List.range' 1 104).Nodup := List.nodup_range' _ _
  have h2 : skus.Nodup := by decide
  have h3 : dcs.Nodup := by decide
  exact List.Nodup.product h1 (List.Nodup.product h2 h3)

/-! Claim theorems. -/

set_option maxRecDepth 100000 in
unseal Rat.add Rat.mul Rat.inv Rat.sub in
/-- C1: in calculate_baseline_forecast, given the four prior actuals 480,
510, 495, 505 for a (sku, location) at festival week 8, the recorded
naive baseline is 497 and the recorded festival-adjusted forecast is 721. -/
theorem C1_festival_example :
    (calculate_baseline_forecast c1Actuals).map (fun pr => pr.1) =
      some [⟨8, "SKU001_Snacks", "Mumbai", 497, 721, 500⟩] := by
  decide

/-- C2 counterexample: no random streams make the deliveries generator of
the pipeline emit a delivery with release week 99; the loop range
range(1, weeks - 5) stops at week 98. -/
theorem C2_no_week99_release :
    ¬ ∃ r1 r2 : ℕ → ℚ, validStream r1 ∧ validStream r2 ∧
      ∃ d ∈ generate_deliveries_data r2 (generate_suppliers_data r1), d.week_release = 99 := by
  rintro ⟨r1, r2, -, -, d, hd, h99⟩
  have := (generate_deliveries_release r2 (generate_suppliers_data r1) d hd).2
  omega

set_option maxRecDepth 100000 in
unseal Rat.add Rat.mul Rat.inv Rat.sub in
/-- C2 (amended): the deliveries generator considers release weeks 1
through 98; for every stream every week_release lies in that interval,
and under the all-zero stream a delivery with week_release 98 is
produced. -/
theorem C2_release_weeks :
    (∀ (r : ℕ → ℚ) (sups : List SupplierRow), ∀ d ∈ generate_deliveries_data r sups,
      1 ≤ d.week_release ∧ d.week_release ≤ 98) ∧
    ∃ d ∈ generate_deliveries_data zeroStream (generate_suppliers_data zeroStream),
      d.week_release = 98 := by
  constructor
  · exact fun r sups => generate_deliveries_release r sups
  · decide

set_option maxRecDepth 100000 in
unseal Rat.add Rat.mul Rat.inv Rat.sub in
/-- Witness for C2: the first delivery of the all-zero run has its
release week inside 1..98. -/
theorem C2_release_weeks_witness :
    1 ≤ zeroDelivery.week_release ∧ zeroDelivery.week_release ≤ 98 :=
  C2_release_weeks.1 zeroStream (generate_suppliers_data zeroStream) zeroDelivery (by decide)

/-- C5: every delivery record satisfies week_arrival at least
week_release and week_arrival at most 104. -/
theorem C5_delivery_bounds (r : ℕ → ℚ) (sups : List SupplierRow) :
    ∀ d ∈ generate_deliveries_data r sups,
      (d.week_release : ℤ) ≤ d.week_arrival ∧ d.week_arrival ≤ 104 := by
  intro d hd
  exact (deliveriesAux_facts r (deliveryPairs sups) 0 d hd).1

set_option maxRecDepth 100000 in
unseal Rat.add Rat.mul Rat.inv Rat.sub in
/-- Witness for C5 at the first delivery of the all-zero run. -/
theorem C5_delivery_bounds_witness :
    (zeroDelivery.week_release : ℤ) ≤ zeroDelivery.week_arrival ∧
      zeroDelivery.week_arrival ≤ 104 :=
  C5_delivery_bounds zeroStream (generate_suppliers_data zeroStream) zeroDelivery (by decide)

set_option maxRecDepth 100000 in
/-- C9: for every valid stream the forecast table has exactly
104 x 5 x 2 = 1040 rows and every forecast quantity is a nonnegative
integer. -/
theorem C9_forecast_shape (ops : RealOps) (r : ℕ → ℚ) (hr : validStream r) :
    (generate_forecast_data ops r).length = 1040 ∧
    ∀ f ∈ generate_forecast_data ops r, 0 ≤ f.forecast_qty := by
  constructor
  · rw [generate_forecast_data, forecastRows_length]
    decide
  · intro f hf
    have := forecastRows_qty ops r hr forecastTriples 0 f hf
    omega

/-- Witness for C9 at the all-zero stream. -/
theorem C9_forecast_shape_witness :
    (generate_forecast_data zeroOps zeroStream).length = 1040 ∧
    ∀ f ∈ generate_forecast_data zeroOps zeroStream, 0 ≤ f.forecast_qty :=
  C9_forecast_shape zeroOps zeroStream zeroStream_valid

/-- C10: for every valid stream the supplier table has exactly 5 rows,
supplier i paired 1:1 with SKU i, and every on-time probability lies in
the closed interval from 0.70 to 0.95. -/
theorem C10_suppliers_shape (r : ℕ → ℚ) (hr : validStream r) :
    (generate_suppliers_data r).length = 5 ∧
    (generate_suppliers_data r).map (fun x => (x.supplier_id, x.sku)) = supplier_ids.zip skus ∧
    ∀ x ∈ generate_suppliers_data r, 7/10 ≤ x.on_time_prob ∧ x.on_time_prob ≤ 95/100 := by
  refine ⟨rfl, rfl, ?_⟩
  intro x hx
  rw [generate_suppliers_data] at hx
  obtain ⟨i, hi, rfl⟩ := List.mem_map.1 hx
  obtain ⟨h0, h1⟩ := hr (3 * i + 2)
  constructor
  · dsimp only
    nlinarith
  · dsimp only
    nlinarith

/-- Witness for C10 at the all-zero stream. -/
theorem C10_suppliers_shape_witness :
    (generate_suppliers_data zeroStream).length = 5 ∧
    (generate_suppliers_data zeroStream).map (fun x => (x.supplier_id, x.sku)) =
      supplier_ids.zip skus ∧
    ∀ x ∈ generate_suppliers_data zeroStream,
      7/10 ≤ x.on_time_prob ∧ x.on_time_prob ≤ 95/100 :=
  C10_suppliers_shape zeroStream zeroStream_valid

set_option maxRecDepth 100000 in
unseal Rat.add Rat.mul Rat.inv Rat.sub in
/-- C3: for every emitted performance row whose matched actual a is
nonzero, naive_mape is abs(a - naive_baseline)/a and festival_mape is
abs(a - festival_adjusted)/a; the division carries no zero guard, and on
an actuals input holding a matched zero actual at a week of at least 5
the division-by-zero branch is reached (the zeroActuals run emits a
week-8 performance row with an undefined naive_mape). -/
theorem C3_mape_formula :
    (∀ (actuals_df : List ActualRow) (bs : List BaselineRow) (ps : List PerfRow),
      calculate_baseline_forecast actuals_df = some (bs, ps) →
      ∀ p ∈ ps, ∃ row, currentRow actuals_df p.week p.sku p.dc = some row ∧
        (row.actual_qty ≠ 0 →
          p.naive_mape = some (|(row.actual_qty : ℚ) - windowMean actuals_df p.week p.sku p.dc| / (row.actual_qty : ℚ)) ∧
          p.festival_mape = some (|(row.actual_qty : ℚ) - windowMean actuals_df p.week p.sku p.dc * upliftFactor p.week| / (row.actual_qty : ℚ))) ∧
        (row.actual_qty = 0 → p.naive_mape = none ∧ p.festival_mape = none)) ∧
    (calculate_baseline_forecast zeroActuals).map (fun pr => pr.2.map fun p => (p.week, p.naive_mape)) =
      some [(8, none)] := by
  constructor
  · intro actuals_df bs ps h p hp
    obtain ⟨-, -, row, hcur, hn, hf⟩ := (calcRows_spec actuals_df calcTriples bs ps h).2 p hp
    refine ⟨row, hcur, ?_, ?_⟩
    · intro hne
      rw [hn, hf]
      constructor <;> simp [mapeOf, hne]
    · intro hz
      rw [hn, hf]
      constructor <;> simp [mapeOf, hz]
  · decide

set_option maxRecDepth 100000 in
unseal Rat.add Rat.mul Rat.inv Rat.sub in
/-- Witness for C3 at the zeroActuals run and its week-8 performance row. -/
theorem C3_mape_formula_witness :
    ∃ row, currentRow zeroActuals zeroPerfRow.week zeroPerfRow.sku zeroPerfRow.dc = some row ∧
      (row.actual_qty ≠ 0 →
        zeroPerfRow.naive_mape = some (|(row.actual_qty : ℚ) - windowMean zeroActuals zeroPerfRow.week zeroPerfRow.sku zeroPerfRow.dc| / (row.actual_qty : ℚ)) ∧
        zeroPerfRow.festival_mape = some (|(row.actual_qty : ℚ) - windowMean zeroActuals zeroPerfRow.week zeroPerfRow.sku zeroPerfRow.dc * upliftFactor zeroPerfRow.week| / (row.actual_qty : ℚ))) ∧
      (row.actual_qty = 0 → zeroPerfRow.naive_mape = none ∧ zeroPerfRow.festival_mape = none) :=
  C3_mape_formula.1 zeroActuals [zeroBaselineRow] [zeroPerfRow] (by decide) zeroPerfRow (by decide)

/-- C4: for every pair of valid streams, every actual quantity produced
by the pipeline is strictly positive, and consequently the MAPE division
never sees a zero actual: every performance row of the baseline
calculation on pipeline actuals carries defined MAPE values. -/
theorem C4_actuals_positive (ops : RealOps) (r r2 : ℕ → ℚ)
    (h1 : validStream r) (h2 : validStream r2) :
    (∀ a ∈ generate_actuals_data r2 (generate_forecast_data ops r), 0 < a.actual_qty) ∧
    (∀ (bs : List BaselineRow) (ps : List PerfRow),
      calculate_baseline_forecast (generate_actuals_data r2 (generate_forecast_data ops r)) = some (bs, ps) →
      ∀ p ∈ ps, p.naive_mape.isSome ∧ p.festival_mape.isSome) := by
  have hpos : ∀ a ∈ generate_actuals_data r2 (generate_forecast_data ops r), 0 < a.actual_qty := by
    apply actualsRows_pos r2 h2
    intro f hf
    exact forecastRows_qty ops r h1 forecastTriples 0 f hf
  refine ⟨hpos, ?_⟩
  intro bs ps h p hp
  obtain ⟨-, -, row, hcur, hn, hf⟩ := (calcRows_spec _ calcTriples bs ps h).2 p hp
  have hne : row.actual_qty ≠ 0 := ne_of_gt (hpos row (currentRow_mem hcur))
  rw [hn, hf]
  constructor <;> simp [mapeOf, hne]

/-- Witness for C4 at the all-zero stream and operations. -/
theorem C4_actuals_positive_witness :
    (∀ a ∈ generate_actuals_data zeroStream (generate_forecast_data zeroOps zeroStream),
      0 < a.actual_qty) ∧
    (∀ (bs : List BaselineRow) (ps : List PerfRow),
      calculate_baseline_forecast (generate_actuals_data zeroStream (generate_forecast_data zeroOps zeroStream)) = some (bs, ps) →
      ∀ p ∈ ps, p.naive_mape.isSome ∧ p.festival_mape.isSome) :=
  C4_actuals_positive zeroOps zeroStream zeroStream zeroStream_valid zeroStream_valid

set_option maxRecDepth 100000 in
unseal Rat.add Rat.mul Rat.inv Rat.sub in
/-- C6 counterexample: on the all-zero actuals the calculator emits a
week-8 record, week 8 is a festival week, and the stored
festival_adjusted_forecast equals the stored naive_forecast, so stored
equality of the two fields does not hold exactly when is_festival is
false. -/
theorem C6_stored_equality_cex :
    (calculate_baseline_forecast zeroActuals).map
        (fun pr => pr.1.map fun b => (b.week, b.naive_forecast, b.festival_adjusted_forecast)) =
      some [(8, 0, 0)] ∧ isFestivalWeek 8 = true := by
  constructor
  · decide
  · decide

/-- C6 (amended): every emitted baseline record stores the truncated
window mean as naive_forecast and the truncated product of the window
mean with the festival factor (1.45 on festival weeks, 1 otherwise) as
festival_adjusted_forecast; on non-festival weeks the two stored fields
coincide.  Stored equality can also occur on festival weeks, e.g. for a
zero window mean. -/
theorem C6_festival_adjustment (actuals_df : List ActualRow)
    (bs : List BaselineRow) (ps : List PerfRow)
    (h : calculate_baseline_forecast actuals_df = some (bs, ps)) :
    ∀ b ∈ bs, b.naive_forecast = pyInt (windowMean actuals_df b.week b.sku b.dc) ∧
      b.festival_adjusted_forecast = pyInt (windowMean actuals_df b.week b.sku b.dc * upliftFactor b.week) ∧
      (isFestivalWeek b.week = false → b.festival_adjusted_forecast = b.naive_forecast) := by
  intro b hb
  obtain ⟨-, hn, hf, -⟩ := (calcRows_spec actuals_df calcTriples bs ps h).1 b hb
  refine ⟨hn, hf, ?_⟩
  intro hw
  rw [hf, hn, upliftFactor, hw]
  simp

set_option maxRecDepth 100000 in
unseal Rat.add Rat.mul Rat.inv Rat.sub in
/-- Witness for C6 at the zeroActuals run and its week-8 baseline row. -/
theorem C6_festival_adjustment_witness :
    zeroBaselineRow.naive_forecast =
      pyInt (windowMean zeroActuals zeroBaselineRow.week zeroBaselineRow.sku zeroBaselineRow.dc) ∧
    zeroBaselineRow.festival_adjusted_forecast =
      pyInt (windowMean zeroActuals zeroBaselineRow.week zeroBaselineRow.sku zeroBaselineRow.dc *
        upliftFactor zeroBaselineRow.week) ∧
    (isFestivalWeek zeroBaselineRow.week = false →
      zeroBaselineRow.festival_adjusted_forecast = zeroBaselineRow.naive_forecast) :=
  C6_festival_adjustment zeroActuals [zeroBaselineRow] [zeroPerfRow] (by decide)
    zeroBaselineRow (by decide)

/-- C7: every baseline and performance row has week at least 5 and a
window of at least 4 observations at its key, and a triple whose window
holds fewer than 4 observations contributes no row to either table. -/
theorem C7_window_policy (actuals_df : List ActualRow)
    (bs : List BaselineRow) (ps : List PerfRow)
    (h : calculate_baseline_forecast actuals_df = some (bs, ps)) :
    (∀ b ∈ bs, 5 ≤ b.week ∧ 4 ≤ (lastFour actuals_df b.week b.sku b.dc).length) ∧
    (∀ p ∈ ps, 5 ≤ p.week ∧ 4 ≤ (lastFour actuals_df p.week p.sku p.dc).length) ∧
    (∀ (w : ℕ) (s d : String), (lastFour actuals_df w s d).length < 4 →
      (∀ b ∈ bs, ¬(b.week = w ∧ b.sku = s ∧ b.dc = d)) ∧
      (∀ p ∈ ps, ¬(p.week = w ∧ p.sku = s ∧ p.dc = d))) := by
  obtain ⟨hbs, hps⟩ := calcRows_spec actuals_df calcTriples bs ps h
  refine ⟨?_, ?_, ?_⟩
  · intro b hb
    obtain ⟨⟨hts, hl⟩, -⟩ := hbs b hb
    exact ⟨calcTriples_week hts, hl⟩
  · intro p hp
    obtain ⟨⟨hts, hl⟩, -⟩ := hps p hp
    exact ⟨calcTriples_week hts, hl⟩
  · intro w s d hlt
    constructor
    · rintro b hb ⟨hw, hs, hd⟩
      obtain ⟨⟨-, hl⟩, -⟩ := hbs b hb
      rw [hw, hs, hd] at hl
      omega
    · rintro p hp ⟨hw, hs, hd⟩
      obtain ⟨⟨-, hl⟩, -⟩ := hps p hp
      rw [hw, hs, hd] at hl
      omega

set_option maxRecDepth 100000 in
unseal Rat.add Rat.mul Rat.inv Rat.sub in
/-- Witness for C7 at the zeroActuals run and its week-8 baseline row. -/
theorem C7_window_policy_witness :
    5 ≤ zeroBaselineRow.week ∧
    4 ≤ (lastFour zeroActuals zeroBaselineRow.week zeroBaselineRow.sku zeroBaselineRow.dc).length :=
  (C7_window_policy zeroActuals [zeroBaselineRow] [zeroPerfRow] (by decide)).1
    zeroBaselineRow (by decide)

/-- C8: every key (week, sku, dc) appearing in the forecast table appears
in exactly one row of the actuals table derived from it, for every pair
of streams. -/
theorem C8_actuals_match_forecast (ops : RealOps) (r r2 : ℕ → ℚ) (k : ℕ × String × String)
    (hk : ∃ f ∈ generate_forecast_data ops r, (f.week, f.sku, f.dc) = k) :
    (generate_actuals_data r2 (generate_forecast_data ops r)).countP
      (fun a => decide ((a.week, a.sku, a.dc) = k)) = 1 := by
  obtain ⟨f, hf, hfk⟩ := hk
  have hkeys : (generate_actuals_data r2 (generate_forecast_data ops r)).map
      (fun a => (a.week, a.sku, a.dc)) = forecastTriples := by
    rw [generate_actuals_data, actualsRows_key, generate_forecast_data, forecastRows_key]
  have hmem : k ∈ forecastTriples := by
    have hin : (f.week, f.sku, f.dc) ∈ (generate_forecast_data ops r).map
        (fun g => (g.week, g.sku, g.dc)) := List.mem_map_of_mem _ hf
    rw [generate_forecast_data, forecastRows_key] at hin
    exact hfk ▸ hin
  calc (generate_actuals_data r2 (generate_forecast_data ops r)).countP
        (fun a => decide ((a.week, a.sku, a.dc) = k))
      = ((generate_actuals_data r2 (generate_forecast_data ops r)).map
          (fun a => (a.week, a.sku, a.dc))).countP (fun x => decide (x = k)) :=
        (List.countP_map (fun x => decide (x = k)) (fun a : ActualRow => (a.week, a.sku, a.dc)) _).symm
    _ = forecastTriples.countP (fun x => decide (x = k)) := by rw [hkeys]
    _ = 1 := countP_eq_one_of_nodup forecastTriples_nodup hmem

set_option maxRecDepth 100000 in
unseal Rat.add Rat.mul Rat.inv Rat.sub in
/-- Witness for C8 at the all-zero run and the key of the first forecast
row. -/
theorem C8_actuals_match_forecast_witness :
    (generate_actuals_data zeroStream (generate_forecast_data zeroOps zeroStream)).countP
      (fun a => decide ((a.week, a.sku, a.dc) = ((1 : ℕ), "SKU001_Snacks", "Mumbai"))) = 1 :=
  C8_actuals_match_forecast zeroOps zeroStream zeroStream ((1 : ℕ), "SKU001_Snacks", "Mumbai")
    ⟨⟨1, "SKU001_Snacks", "Mumbai", 550, 0⟩, by decide, rfl⟩
